import Mathlib

/-!
Verification of the career-path-advisor orchestration (`career_path_advisor.py`).

The program is a sequential three-stage pipeline driven by
`run_interactive_session`: a bounded profile-collection loop around
`gather_profile`, one call to `research_learning_path`, one call to
`create_roadmap`, then a best-effort cleanup `_cleanup_mcp`.  External
collaborators (the language model, the human typing at the console, the
MCP search tool) are modelled as oracles supplied in a `SessionEnv`; each
oracle answer is either a produced string or a raised Python exception.
Python distinguishes `KeyboardInterrupt` (not a subclass of `Exception`)
from ordinary exceptions, and so do we: `_cleanup_mcp`'s `except Exception`
swallows only the latter.

Running a session yields an event trace (every model call, console read,
result-record assignment and cleanup attempt, in order), the final state of
the advisor object (`_profile_context` and the three `context` fields), and
the exception, if any, that escaped `run_interactive_session`.
-/

namespace CareerAdvisor

/-- Python exception model: `KeyboardInterrupt` is distinguished from
ordinary `Exception`s (in Python it does not derive from `Exception`). -/
inductive PyExn where
  | keyboardInterrupt
  | error (msg : String)
deriving DecidableEq

/-- Observable events of a session, recorded in program order:
console reads, model-call attempts of each of the three agents (a
`profileCall` records the reply, or `none` if the call raised), the three
write-once assignments into `self.context`, and the cleanup attempt. -/
inductive Event where
  | inputRead (line : String)
  | profileCall (input : String) (reply : Option String)
  | assignProfile (p : String)
  | researchCall (profile : String)
  | assignResources (r : String)
  | roadmapCall (profile : String) (resources : String)
  | assignRoadmap (m : String)
  | cleanup
deriving DecidableEq

/-- Test whether `pat` is a prefix of `l` (over characters). -/
def startsWithSeq : List Char → List Char → Bool
  | [], _ => true
  | _ :: _, [] => false
  | p :: ps, c :: cs => p = c && startsWithSeq ps cs

/-- Substring search over character lists: Python's `pat in s`. -/
def containsSeq (pat : List Char) : List Char → Bool
  | [] => startsWithSeq pat []
  | c :: cs => startsWithSeq pat (c :: cs) || containsSeq pat cs

/-- Marker test `"PROFILE_COMPLETE" in profile_response` (line 416 of the source). -/
def hasMarker (s : String) : Bool :=
  containsSeq "PROFILE_COMPLETE".toList s.toList

/-- Whitespace characters removed by Python's `str.strip()`. -/
def isSpaceChar (c : Char) : Bool :=
  c = ' ' || c = '\t' || c = '\n' || c = '\r' || c = '\x0b' || c = '\x0c'

/-- Python `not user_input.strip()` : the string is empty or whitespace-only. -/
def strippedEmpty (s : String) : Bool :=
  s.toList.all isSpaceChar

/-- Oracle for `_cleanup_mcp`: the outcome of the `asyncio.sleep(0.5)`
suspension, which of `close` / `__aexit__` the tool object exposes
(`hasattr` checks), and the outcome of whichever release call is made. -/
structure CleanupEnv where
  sleepResult : Except PyExn Unit
  hasClose : Bool
  closeResult : Except PyExn Unit
  hasAexit : Bool
  aexitResult : Except PyExn Unit

/-- Method `_cleanup_mcp` (source lines 363-381): `try:` sleep, then `close()` if
present, else `__aexit__` if present; `except Exception: pass`.  A
`KeyboardInterrupt` is not an `Exception` in Python and is not caught. -/
def cleanup_mcp (ce : CleanupEnv) : Except PyExn Unit :=
  let body : Except PyExn Unit :=
    match ce.sleepResult with
    | .error e => .error e
    | .ok _ =>
      if ce.hasClose then ce.closeResult
      else if ce.hasAexit then ce.aexitResult
      else .ok ()
  match body with
  | .ok _ => .ok ()
  | .error .keyboardInterrupt => .error .keyboardInterrupt
  | .error (.error _) => .ok ()

/-- Method `gather_profile` (source lines 285-308): append `"User: " + input` to
`_profile_context`, send the joined context to the profile agent, and on a
reply append `"Agent: " + reply`.  If the model call raises, the user entry
has already been appended.  Returns the new context and the call outcome. -/
def gather_profile (modelResult : Except PyExn String) (ctx : List String)
    (user_input : String) : List String × Except PyExn String :=
  match modelResult with
  | .error e => (ctx ++ ["User: " ++ user_input], .error e)
  | .ok t => (ctx ++ ["User: " ++ user_input, "Agent: " ++ t], .ok t)

/-- The oracles a session consumes: the initial console read, the follow-up
console read after the k-th profile model call, the k-th profile-agent
reply, the research-agent reply, the advisor-agent reply, and the cleanup
behaviour.  Each is a string or a raised exception/interrupt. -/
structure SessionEnv where
  initialInput : Except PyExn String
  followUp : Nat → Except PyExn String
  profileModel : Nat → Except PyExn String
  researchModel : Except PyExn String
  advisorModel : Except PyExn String
  cleanupEnv : CleanupEnv

/-- Mutable state of the `CareerPathAdvisor` object: `_profile_context`
and the three fields of `self.context`; a field is `none` until the
orchestrator assigns it. -/
structure AdvisorState where
  profileContext : List String
  userProfile : Option String
  learningResources : Option String
  careerRoadmap : Option String
deriving DecidableEq

/-- State right after `__init__`. -/
def initState : AdvisorState :=
  { profileContext := [], userProfile := none,
    learningResources := none, careerRoadmap := none }

/-- Result of running a session: the event trace, the final object state,
and the exception (if any) escaping `run_interactive_session`. -/
structure RunResult where
  trace : List Event
  state : AdvisorState
  exn : Option PyExn

/-- The `for i in range(5)` profile-collection loop (source lines 410-423).
`fuel` is the number of remaining iterations, `k` the number of
`gather_profile` calls already made.  Each iteration: call
`gather_profile`; if the reply holds the marker, exit with
`profile_text = reply`; otherwise read a follow-up line, exit if it is
blank, and exit after the last iteration.  Returns the extended trace, the
new `_profile_context`, and on normal exit the pair
(`profile_text`, last reply). -/
def profileLoop (env : SessionEnv) :
    Nat → Nat → String → List String → List Event →
    List Event × List String × Except PyExn (String × String)
  | 0, _, _, ctx, tr => (tr, ctx, .ok ("", ""))
  | n + 1, k, u, ctx, tr =>
    match gather_profile (env.profileModel k) ctx u with
    | (ctx1, .error e) => (tr ++ [Event.profileCall u none], ctx1, .error e)
    | (ctx1, .ok reply) =>
      if hasMarker reply then
        (tr ++ [Event.profileCall u (some reply)], ctx1, .ok (reply, reply))
      else
        match env.followUp k with
        | .error e => (tr ++ [Event.profileCall u (some reply)], ctx1, .error e)
        | .ok line =>
          if strippedEmpty line then
            (tr ++ [Event.profileCall u (some reply), Event.inputRead line],
             ctx1, .ok ("", reply))
          else
            match n with
            | 0 =>
              (tr ++ [Event.profileCall u (some reply), Event.inputRead line],
               ctx1, .ok ("", reply))
            | m + 1 =>
              profileLoop env (m + 1) (k + 1) line ctx1
                (tr ++ [Event.profileCall u (some reply), Event.inputRead line])

/-- Method `run_interactive_session` (source lines 388-451): read the initial
input, run the bounded profile loop, apply the
`if not profile_text: profile_text = profile_response` fallback, assign
`context["user_profile"]`, call the research agent, assign
`context["learning_resources"]`, call the advisor agent, assign
`context["career_roadmap"]`, then `_cleanup_mcp`.  Any raised exception
aborts the remaining steps and escapes. -/
def run_interactive_session (env : SessionEnv) : RunResult :=
  match env.initialInput with
  | .error e => { trace := [], state := initState, exn := some e }
  | .ok first =>
    match profileLoop env 5 0 first [] [Event.inputRead first] with
    | (tr1, ctx1, .error e) =>
      { trace := tr1, state := { initState with profileContext := ctx1 },
        exn := some e }
    | (tr1, ctx1, .ok (ptext, lastReply)) =>
      let profile_text := if ptext = "" then lastReply else ptext
      let st1 : AdvisorState :=
        { profileContext := ctx1, userProfile := some profile_text,
          learningResources := none, careerRoadmap := none }
      let tr2 := tr1 ++ [Event.assignProfile profile_text,
                         Event.researchCall profile_text]
      match env.researchModel with
      | .error e => { trace := tr2, state := st1, exn := some e }
      | .ok resources =>
        let st2 := { st1 with learningResources := some resources }
        let tr3 := tr2 ++ [Event.assignResources resources,
                           Event.roadmapCall profile_text resources]
        match env.advisorModel with
        | .error e => { trace := tr3, state := st2, exn := some e }
        | .ok roadmap =>
          let st3 := { st2 with careerRoadmap := some roadmap }
          let tr4 := tr3 ++ [Event.assignRoadmap roadmap, Event.cleanup]
          match cleanup_mcp env.cleanupEnv with
          | .ok _ => { trace := tr4, state := st3, exn := none }
          | .error e => { trace := tr4, state := st3, exn := some e }

/-- What the top-level `main` (source lines 458-476) reports:
normal completion, the `except KeyboardInterrupt` farewell message, or the
`except Exception` error report. -/
inductive MainOutcome where
  | normal
  | farewell
  | errorReport (msg : String)
deriving DecidableEq

/-- Entry point `main`: run the session; `except KeyboardInterrupt` prints the
farewell, `except Exception as e` prints the error. -/
def main (env : SessionEnv) : RunResult × MainOutcome :=
  let r := run_interactive_session env
  match r.exn with
  | none => (r, .normal)
  | some .keyboardInterrupt => (r, .farewell)
  | some (.error m) => (r, .errorReport m)

/-- The four environment variables as read by `os.getenv` (a missing
variable is `none`, a set-but-empty one is `some ""`). -/
structure EnvVars where
  azureEndpoint : Option String
  apiKey : Option String
  deploymentName : Option String
  apiVersion : Option String

/-- Python truthiness of an `os.getenv` result: present and non-empty. -/
def truthy : Option String → Bool
  | none => false
  | some s => s ≠ ""

/-- The validated configuration handed to the agent constructors. -/
structure Config where
  endpoint : String
  apiKey : String
  deploymentName : String
  apiVersion : String
deriving DecidableEq

/-- Module-level configuration validation (source lines 40-52): the three
`if not X: raise ValueError(...)` checks in order, run before any agent is
constructed; `AZURE_OPENAI_API_VERSION` defaults to the literal
`"2025-01-01-preview"` only when unset. -/
def loadConfig (ev : EnvVars) : Except String Config :=
  if !truthy ev.azureEndpoint then
    .error "AZURE_OPENAI_ENDPOINT not found in .env file"
  else if !truthy ev.apiKey then
    .error "AZURE_OPENAI_API_KEY not found in .env file"
  else if !truthy ev.deploymentName then
    .error "AZURE_OPENAI_DEPLOYMENT_NAME not found in .env file"
  else
    .ok { endpoint := ev.azureEndpoint.getD "",
          apiKey := ev.apiKey.getD "",
          deploymentName := ev.deploymentName.getD "",
          apiVersion := ev.apiVersion.getD "2025-01-01-preview" }

/-- Is this event a `gather_profile` model-call attempt? -/
def isProfileCall : Event → Bool
  | .profileCall _ _ => true
  | _ => false

/-- Number of `gather_profile` model-call attempts in a trace. -/
def countProfileCalls (tr : List Event) : Nat :=
  (tr.filter isProfileCall).length

/-- The transcript entries that the recorded calls appended to
`_profile_context`: a user entry per call, plus an agent entry when the
call returned. -/
def transcriptOf (tr : List Event) : List String :=
  tr.flatMap fun e =>
    match e with
    | .profileCall input (some rep) => ["User: " ++ input, "Agent: " ++ rep]
    | .profileCall input none => ["User: " ++ input]
    | _ => []

/-- The profile-agent replies recorded in a trace, in order. -/
def repliesOf (tr : List Event) : List String :=
  tr.filterMap fun e =>
    match e with
    | .profileCall _ (some rep) => some rep
    | _ => none

/-- Events emitted inside the profile-collection loop (console reads and
profile model calls). -/
def loopEvent : Event → Bool
  | .inputRead _ => true
  | .profileCall _ _ => true
  | _ => false

/-- A profile model call that raised (no reply). -/
def callFailed : Event → Bool
  | .profileCall _ none => true
  | _ => false

/-- Did this oracle outcome raise `KeyboardInterrupt`? -/
def isInterrupt : Except PyExn Unit → Bool
  | .error .keyboardInterrupt => true
  | _ => false

/-- After any blank console read in the list, no further profile model
call occurs. -/
def blankStops : List Event → Prop
  | [] => True
  | .inputRead l :: rest =>
      (strippedEmpty l = true → countProfileCalls rest = 0) ∧ blankStops rest
  | _ :: rest => blankStops rest

/-- The exception escaping a call modelled by `r`, if any. -/
def exnOf : Except PyExn Unit → Option PyExn
  | .ok _ => none
  | .error e => some e

/-- The invariants of the block of events the profile loop contributes:
only console reads and profile model calls, the first event is the model
call on the initial input, blank reads stop the calls, and at most five
calls are made. -/
def loopProps (f : String) (ext : List Event) : Prop :=
  (∀ e ∈ ext, loopEvent e = true) ∧ blankStops ext ∧
  countProfileCalls ext ≤ 5 ∧
  ∃ rep rest, ext = Event.profileCall f rep :: rest

/-- The profile text handed onward is the last recorded reply, and every
reply before the last lacks the completion marker. -/
def repliesProps (pt : String) (ext : List Event) : Prop :=
  (repliesOf ext).getLast? = some pt ∧
  ∀ r ∈ (repliesOf ext).dropLast, hasMarker r = false

/-- A cleanup oracle in which nothing fails. -/
def okCleanup : CleanupEnv :=
  { sleepResult := .ok (), hasClose := true, closeResult := .ok (),
    hasAexit := false, aexitResult := .ok () }

/-- A fully successful two-exchange session: the first reply asks a
question, the second carries the completion marker. -/
def envFull : SessionEnv :=
  { initialInput := .ok "cloud developer"
    followUp := fun _ => .ok "beginner"
    profileModel := fun n =>
      if n = 0 then .ok "What is your current level?"
      else .ok "PROFILE_COMPLETE Goal: cloud developer"
    researchModel := .ok "RESOURCE: AZ-900"
    advisorModel := .ok "YOUR CAREER PATH"
    cleanupEnv := okCleanup }

/-- A session whose human types a blank line at the first follow-up. -/
def envBlank : SessionEnv :=
  { initialInput := .ok "cloud developer"
    followUp := fun _ => .ok ""
    profileModel := fun _ => .ok "What is your current level?"
    researchModel := .ok "RESOURCE: AZ-900"
    advisorModel := .ok "YOUR CAREER PATH"
    cleanupEnv := okCleanup }

/-- A session whose initial console read returns a blank line. -/
def envBlankInit : SessionEnv :=
  { envFull with initialInput := .ok "" }

/-- A session interrupted (Ctrl-C) during the first profile model call. -/
def envInterrupt : SessionEnv :=
  { envFull with profileModel := fun _ => .error .keyboardInterrupt }

/-- A session whose research-stage model call times out. -/
def envResearchFail : SessionEnv :=
  { envFull with researchModel := .error (.error "request timeout") }

/-- A cleanup oracle in which the sleep and the release both raise
ordinary exceptions. -/
def failCleanup : CleanupEnv :=
  { sleepResult := .error (.error "network down"), hasClose := true,
    closeResult := .error (.error "connection already closed"),
    hasAexit := false, aexitResult := .ok () }

/-- Environment variables with the endpoint missing. -/
def missingEndpointEnv : EnvVars :=
  { azureEndpoint := none, apiKey := some "key",
    deploymentName := some "gpt-4o", apiVersion := none }

/-- The joined conversation text `full_context` that `gather_profile`
sends to the profile agent (`"\n".join(self._profile_context)`).  The text
itself never influences the orchestration control flow. -/
def full_context (ctx : List String) : String :=
  String.intercalate "\n" ctx

/-- The research query template of `research_learning_path` (source lines
323-329), with the profile text embedded: inert data handed to the
external research agent together with the attached MCP search tool. -/
def research_query (profile : String) : String :=
  "\nUser Profile:\n" ++ profile ++
  "\n\nSearch Microsoft Learn for learning resources, courses, certifications, and labs \nthat match this career goal and experience level.\n        "

/-- The roadmap query template of `create_roadmap` (source lines 349-357),
with profile and resources embedded: inert data handed to the external
advisor agent. -/
def roadmap_query (profile resources : String) : String :=
  "\nUSER PROFILE:\n" ++ profile ++ "\n\nAVAILABLE RESOURCES:\n" ++ resources ++
  "\n\nCreate a personalized learning roadmap with realistic timelines.\n        "

theorem countProfileCalls_append (a b : List Event) :
    countProfileCalls (a ++ b) = countProfileCalls a + countProfileCalls b := by
  simp [countProfileCalls, List.filter_append]

theorem transcriptOf_append (a b : List Event) :
    transcriptOf (a ++ b) = transcriptOf a ++ transcriptOf b := by
  simp [transcriptOf]

theorem repliesOf_append (a b : List Event) :
    repliesOf (a ++ b) = repliesOf a ++ repliesOf b := by
  simp [repliesOf]

/-- Splitting `L ++ M` at an occurrence of an element not in `L`: the
occurrence lies in `M`, and `pre` extends `L`. -/
theorem mem_pre_of_split {α : Type} (e : α) :
    ∀ (L M pre post : List α),
      L ++ M = pre ++ e :: post → e ∉ L →
      ∃ M1, pre = L ++ M1 ∧ M = M1 ++ e :: post := by
  intro L
  induction L with
  | nil =>
    intro M pre post h _
    exact ⟨pre, rfl, by simpa using h⟩
  | cons x L ih =>
    intro M pre post h he
    cases pre with
    | nil =>
      simp only [List.nil_append, List.cons_append, List.cons.injEq] at h
      exact absurd (h.1 ▸ List.mem_cons_self x L) he
    | cons y pre' =>
      simp only [List.cons_append, List.cons.injEq] at h
      obtain ⟨rfl, h2⟩ := h
      obtain ⟨M1, rfl, hM⟩ := ih M pre' post h2 (fun hm => he (List.mem_cons_of_mem _ hm))
      exact ⟨M1, rfl, hM⟩

theorem blankStops_append (xs ys : List Event) (hy : blankStops ys)
    (hc : countProfileCalls ys = 0) :
    ∀ _ : blankStops xs, blankStops (xs ++ ys) := by
  induction xs with
  | nil => intro _; simpa using hy
  | cons x xs ih =>
    intro hx
    cases x with
    | inputRead l =>
      obtain ⟨h1, h2⟩ := hx
      refine ⟨?_, ih h2⟩
      intro hb
      show countProfileCalls (xs ++ ys) = 0
      rw [countProfileCalls_append, h1 hb, hc]
    | profileCall u rep => exact ih hx
    | assignProfile p => exact ih hx
    | researchCall p => exact ih hx
    | assignResources r => exact ih hx
    | roadmapCall p r => exact ih hx
    | assignRoadmap m => exact ih hx
    | cleanup => exact ih hx

/-- Extracting the `blankStops` guarantee at a concrete decomposition. -/
theorem blankStops_split (l : String) :
    ∀ (a : List Event) (xs b : List Event), blankStops xs →
      xs = a ++ Event.inputRead l :: b → strippedEmpty l = true →
      countProfileCalls b = 0 := by
  intro a
  induction a with
  | nil =>
    intro xs b h heq hblank
    subst heq
    exact h.1 hblank
  | cons x a ih =>
    intro xs b h heq hblank
    subst heq
    cases x with
    | inputRead l' => exact ih (a ++ Event.inputRead l :: b) b h.2 rfl hblank
    | profileCall u rep => exact ih (a ++ Event.inputRead l :: b) b h rfl hblank
    | assignProfile p => exact ih (a ++ Event.inputRead l :: b) b h rfl hblank
    | researchCall p => exact ih (a ++ Event.inputRead l :: b) b h rfl hblank
    | assignResources r => exact ih (a ++ Event.inputRead l :: b) b h rfl hblank
    | roadmapCall p r => exact ih (a ++ Event.inputRead l :: b) b h rfl hblank
    | assignRoadmap m => exact ih (a ++ Event.inputRead l :: b) b h rfl hblank
    | cleanup => exact ih (a ++ Event.inputRead l :: b) b h rfl hblank

theorem getLast?_cons_of_some {α : Type} (b a : α) (xs : List α)
    (h : xs.getLast? = some a) : (b :: xs).getLast? = some a := by
  cases xs with
  | nil => simp at h
  | cons y ys => rw [List.getLast?_cons_cons]; exact h

/-- One loop iteration whose model call raises. -/
theorem profileLoop_err (env : SessionEnv) (n k : Nat) (u : String)
    (ctx : List String) (tr : List Event) (e : PyExn)
    (hm : env.profileModel k = .error e) :
    profileLoop env (n + 1) k u ctx tr =
      (tr ++ [Event.profileCall u none], ctx ++ ["User: " ++ u], .error e) := by
  simp [profileLoop, gather_profile, hm]

/-- One loop iteration whose reply holds the completion marker. -/
theorem profileLoop_marker (env : SessionEnv) (n k : Nat) (u reply : String)
    (ctx : List String) (tr : List Event)
    (hm : env.profileModel k = .ok reply) (hmk : hasMarker reply = true) :
    profileLoop env (n + 1) k u ctx tr =
      (tr ++ [Event.profileCall u (some reply)],
       ctx ++ ["User: " ++ u, "Agent: " ++ reply], .ok (reply, reply)) := by
  simp [profileLoop, gather_profile, hm, hmk]

/-- One loop iteration whose follow-up console read raises. -/
theorem profileLoop_read_err (env : SessionEnv) (n k : Nat) (u reply : String)
    (ctx : List String) (tr : List Event) (e : PyExn)
    (hm : env.profileModel k = .ok reply) (hmk : hasMarker reply = false)
    (hf : env.followUp k = .error e) :
    profileLoop env (n + 1) k u ctx tr =
      (tr ++ [Event.profileCall u (some reply)],
       ctx ++ ["User: " ++ u, "Agent: " ++ reply], .error e) := by
  simp [profileLoop, gather_profile, hm, hmk, hf]

/-- One loop iteration ended by a blank follow-up line. -/
theorem profileLoop_blank (env : SessionEnv) (n k : Nat) (u reply line : String)
    (ctx : List String) (tr : List Event)
    (hm : env.profileModel k = .ok reply) (hmk : hasMarker reply = false)
    (hf : env.followUp k = .ok line) (hb : strippedEmpty line = true) :
    profileLoop env (n + 1) k u ctx tr =
      (tr ++ [Event.profileCall u (some reply), Event.inputRead line],
       ctx ++ ["User: " ++ u, "Agent: " ++ reply], .ok ("", reply)) := by
  simp [profileLoop, gather_profile, hm, hmk, hf, hb]

/-- The final loop iteration (fuel exhausted after reading a non-blank
follow-up). -/
theorem profileLoop_last (env : SessionEnv) (k : Nat) (u reply line : String)
    (ctx : List String) (tr : List Event)
    (hm : env.profileModel k = .ok reply) (hmk : hasMarker reply = false)
    (hf : env.followUp k = .ok line) (hb : strippedEmpty line = false) :
    profileLoop env 1 k u ctx tr =
      (tr ++ [Event.profileCall u (some reply), Event.inputRead line],
       ctx ++ ["User: " ++ u, "Agent: " ++ reply], .ok ("", reply)) := by
  simp [profileLoop, gather_profile, hm, hmk, hf, hb]

/-- A non-final loop iteration that continues with the next follow-up. -/
theorem profileLoop_step (env : SessionEnv) (m k : Nat) (u reply line : String)
    (ctx : List String) (tr : List Event)
    (hm : env.profileModel k = .ok reply) (hmk : hasMarker reply = false)
    (hf : env.followUp k = .ok line) (hb : strippedEmpty line = false) :
    profileLoop env (m + 2) k u ctx tr =
      profileLoop env (m + 1) (k + 1) line
        (ctx ++ ["User: " ++ u, "Agent: " ++ reply])
        (tr ++ [Event.profileCall u (some reply), Event.inputRead line]) := by
  rw [profileLoop.eq_def]
  simp [gather_profile, hm, hmk, hf, hb]

/-- Full behaviour of the profile-collection loop: it appends a block of
loop events to the trace, appends the matching transcript entries to
`_profile_context`, starts with a model call on the current input, never
makes a model call after a blank follow-up read, makes at most `fuel`
calls, and on normal exit the `profile_text` fallback equals the last
reply, every non-final reply lacking the completion marker. -/
theorem profileLoop_spec (env : SessionEnv) :
    ∀ fuel k u ctx tr, fuel ≠ 0 →
    ∃ ext,
      (profileLoop env fuel k u ctx tr).1 = tr ++ ext ∧
      (profileLoop env fuel k u ctx tr).2.1 = ctx ++ transcriptOf ext ∧
      (∀ e ∈ ext, loopEvent e = true) ∧
      blankStops ext ∧
      countProfileCalls ext ≤ fuel ∧
      (∃ rep rest, ext = Event.profileCall u rep :: rest) ∧
      ((∃ e, (profileLoop env fuel k u ctx tr).2.2 = .error e) ∨
       (∃ pt lr, (profileLoop env fuel k u ctx tr).2.2 = .ok (pt, lr) ∧
          (if pt = "" then lr else pt) = lr ∧
          (repliesOf ext).getLast? = some lr ∧
          ∀ r ∈ (repliesOf ext).dropLast, hasMarker r = false)) := by
  intro fuel
  induction fuel with
  | zero => intro k u ctx tr h; exact absurd rfl h
  | succ n ih =>
    intro k u ctx tr _
    cases hm : env.profileModel k with
    | error e =>
      refine ⟨[Event.profileCall u none], ?_, ?_, ?_, ?_, ?_, ⟨none, [], rfl⟩, .inl ⟨e, ?_⟩⟩ <;>
        simp [profileLoop_err env n k u ctx tr e hm, transcriptOf, loopEvent,
              blankStops, countProfileCalls, isProfileCall]
    | ok reply =>
      cases hmk : hasMarker reply with
      | true =>
        refine ⟨[Event.profileCall u (some reply)], ?_, ?_, ?_, ?_, ?_,
                ⟨some reply, [], rfl⟩, .inr ⟨reply, reply, ?_, ?_, ?_, ?_⟩⟩ <;>
          simp [profileLoop_marker env n k u reply ctx tr hm hmk, transcriptOf,
                loopEvent, blankStops, countProfileCalls, isProfileCall, repliesOf]
      | false =>
        cases hf : env.followUp k with
        | error e =>
          refine ⟨[Event.profileCall u (some reply)], ?_, ?_, ?_, ?_, ?_,
                  ⟨some reply, [], rfl⟩, .inl ⟨e, ?_⟩⟩ <;>
            simp [profileLoop_read_err env n k u reply ctx tr e hm hmk hf,
                  transcriptOf, loopEvent, blankStops, countProfileCalls, isProfileCall]
        | ok line =>
          cases hb : strippedEmpty line with
          | true =>
            refine ⟨[Event.profileCall u (some reply), Event.inputRead line],
                    ?_, ?_, ?_, ?_, ?_,
                    ⟨some reply, [Event.inputRead line], rfl⟩,
                    .inr ⟨"", reply, ?_, ?_, ?_, ?_⟩⟩ <;>
              simp [profileLoop_blank env n k u reply line ctx tr hm hmk hf hb,
                    transcriptOf, loopEvent, blankStops, countProfileCalls,
                    isProfileCall, repliesOf]
          | false =>
            cases n with
            | zero =>
              refine ⟨[Event.profileCall u (some reply), Event.inputRead line],
                      ?_, ?_, ?_, ?_, ?_,
                      ⟨some reply, [Event.inputRead line], rfl⟩,
                      .inr ⟨"", reply, ?_, ?_, ?_, ?_⟩⟩ <;>
                simp [profileLoop_last env k u reply line ctx tr hm hmk hf hb,
                      transcriptOf, loopEvent, blankStops, countProfileCalls,
                      isProfileCall, repliesOf]
            | succ m =>
              have hstep := profileLoop_step env m k u reply line ctx tr hm hmk hf hb
              obtain ⟨ext', h1, h2, hle, hbs, hcnt, ⟨rep', rest', hhead⟩, hres⟩ :=
                ih (k + 1) line (ctx ++ ["User: " ++ u, "Agent: " ++ reply])
                  (tr ++ [Event.profileCall u (some reply), Event.inputRead line])
                  (Nat.succ_ne_zero m)
              refine ⟨Event.profileCall u (some reply) :: Event.inputRead line :: ext',
                      ?_, ?_, ?_, ?_, ?_,
                      ⟨some reply, Event.inputRead line :: ext', rfl⟩, ?_⟩
              · rw [hstep, h1]
                simp
              · rw [hstep, h2]
                simp [transcriptOf]
              · intro e he
                rcases he with _ | ⟨_, he⟩
                · rfl
                rcases he with _ | ⟨_, he⟩
                · rfl
                exact hle e he
              · refine ⟨?_, hbs⟩
                intro hblank
                rw [hblank] at hb
                exact absurd hb (by simp)
              · have : countProfileCalls
                    (Event.profileCall u (some reply) :: Event.inputRead line :: ext') =
                    1 + countProfileCalls ext' := by
                  simp [countProfileCalls, isProfileCall]
                  omega
                omega
              · rw [hstep]
                rcases hres with ⟨e, he⟩ | ⟨pt, lr, hok, hif, hl, hdl⟩
                · exact .inl ⟨e, he⟩
                · refine .inr ⟨pt, lr, hok, hif, ?_, ?_⟩
                  · have : repliesOf
                        (Event.profileCall u (some reply) :: Event.inputRead line :: ext') =
                        reply :: repliesOf ext' := by
                      simp [repliesOf]
                    rw [this]
                    exact getLast?_cons_of_some reply lr (repliesOf ext') hl
                  · have hrw : repliesOf
                        (Event.profileCall u (some reply) :: Event.inputRead line :: ext') =
                        reply :: repliesOf ext' := by
                      simp [repliesOf]
                    rw [hrw]
                    have hne : repliesOf ext' ≠ [] := by
                      intro hnil
                      rw [hnil] at hl
                      simp at hl
                    rw [List.dropLast_cons_of_ne_nil hne]
                    intro r hr
                    rcases hr with _ | ⟨_, hr⟩
                    · exact hmk
                    exact hdl r hr

/-- Exhaustive case analysis of `run_interactive_session`: the session
either aborts on the initial read, aborts inside the profile loop, aborts
on the research call, aborts on the roadmap call, or completes all three
stages and attempts cleanup.  In each case the trace, state and escaping
exception are given explicitly. -/
theorem run_cases (env : SessionEnv) :
    (∃ e, env.initialInput = .error e ∧
       run_interactive_session env =
         { trace := [], state := initState, exn := some e }) ∨
    (∃ f ext e, env.initialInput = .ok f ∧ loopProps f ext ∧
       run_interactive_session env =
         { trace := Event.inputRead f :: ext,
           state := { initState with profileContext := transcriptOf ext },
           exn := some e }) ∨
    (∃ f ext pt e, env.initialInput = .ok f ∧ loopProps f ext ∧ repliesProps pt ext ∧
       env.researchModel = .error e ∧
       run_interactive_session env =
         { trace := Event.inputRead f ::
             (ext ++ [Event.assignProfile pt, Event.researchCall pt]),
           state := { profileContext := transcriptOf ext, userProfile := some pt,
                      learningResources := none, careerRoadmap := none },
           exn := some e }) ∨
    (∃ f ext pt res e, env.initialInput = .ok f ∧ loopProps f ext ∧ repliesProps pt ext ∧
       env.researchModel = .ok res ∧ env.advisorModel = .error e ∧
       run_interactive_session env =
         { trace := Event.inputRead f ::
             (ext ++ [Event.assignProfile pt, Event.researchCall pt,
                      Event.assignResources res, Event.roadmapCall pt res]),
           state := { profileContext := transcriptOf ext, userProfile := some pt,
                      learningResources := some res, careerRoadmap := none },
           exn := some e }) ∨
    (∃ f ext pt res m, env.initialInput = .ok f ∧ loopProps f ext ∧ repliesProps pt ext ∧
       env.researchModel = .ok res ∧ env.advisorModel = .ok m ∧
       run_interactive_session env =
         { trace := Event.inputRead f ::
             (ext ++ [Event.assignProfile pt, Event.researchCall pt,
                      Event.assignResources res, Event.roadmapCall pt res,
                      Event.assignRoadmap m, Event.cleanup]),
           state := { profileContext := transcriptOf ext, userProfile := some pt,
                      learningResources := some res, careerRoadmap := some m },
           exn := exnOf (cleanup_mcp env.cleanupEnv) }) := by
  cases hi : env.initialInput with
  | error e =>
    exact .inl ⟨e, rfl, by simp [run_interactive_session, hi]⟩
  | ok f =>
    obtain ⟨ext, h1, h2, hle, hbs, hcnt, hhead, hres⟩ :=
      profileLoop_spec env 5 0 f [] [Event.inputRead f] (by simp)
    rcases hout : profileLoop env 5 0 f [] [Event.inputRead f] with ⟨tr1, ctx1, r⟩
    rw [hout] at h1 h2 hres
    simp only at h1 h2 hres
    have hprops : loopProps f ext := ⟨hle, hbs, hcnt, hhead⟩
    rcases hres with ⟨e, rfl⟩ | ⟨pt, lr, rfl, hif, hl, hdl⟩
    · refine .inr (.inl ⟨f, ext, e, rfl, hprops, ?_⟩)
      simp [run_interactive_session, hi, hout, h1, h2, initState]
    · -- normal loop exit; the fallback makes the profile text `lr`
      have hpt : (if pt = "" then lr else pt) = lr := hif
      rcases hrm : env.researchModel with e | res
      · refine .inr (.inr (.inl ⟨f, ext, lr, e, rfl, hprops, ⟨hl, hdl⟩, rfl, ?_⟩))
        simp [run_interactive_session, hi, hout, hrm, h1, h2, hpt]
      · rcases ham : env.advisorModel with e | m
        · refine .inr (.inr (.inr (.inl ⟨f, ext, lr, res, e, rfl, hprops, ⟨hl, hdl⟩, rfl, rfl, ?_⟩)))
          simp [run_interactive_session, hi, hout, hrm, ham, h1, h2, hpt]
        · refine .inr (.inr (.inr (.inr ⟨f, ext, lr, res, m, rfl, hprops, ⟨hl, hdl⟩, rfl, rfl, ?_⟩)))
          cases hc : cleanup_mcp env.cleanupEnv with
          | ok v =>
            simp [run_interactive_session, hi, hout, hrm, ham, hc, h1, h2, hpt, exnOf]
          | error e =>
            simp [run_interactive_session, hi, hout, hrm, ham, hc, h1, h2, hpt, exnOf]

theorem blankStops_of_no_loop (tail : List Event)
    (h : ∀ e ∈ tail, loopEvent e = false) : blankStops tail := by
  induction tail with
  | nil => trivial
  | cons x tail ih =>
    have hx := h x (List.mem_cons_self x tail)
    have ht : ∀ e ∈ tail, loopEvent e = false :=
      fun e he => h e (List.mem_cons_of_mem x he)
    cases x with
    | inputRead l => simp [loopEvent] at hx
    | profileCall u rep => simp [loopEvent] at hx
    | assignProfile p => exact ih ht
    | researchCall p => exact ih ht
    | assignResources r => exact ih ht
    | roadmapCall p r => exact ih ht
    | assignRoadmap m => exact ih ht
    | cleanup => exact ih ht

theorem countProfileCalls_zero_of_no_loop (tail : List Event)
    (h : ∀ e ∈ tail, loopEvent e = false) : countProfileCalls tail = 0 := by
  induction tail with
  | nil => simp [countProfileCalls]
  | cons x tail ih =>
    have hx := h x (List.mem_cons_self x tail)
    have ht : ∀ e ∈ tail, loopEvent e = false :=
      fun e he => h e (List.mem_cons_of_mem x he)
    cases x <;> simp [loopEvent] at hx <;>
      simpa [countProfileCalls, List.filter_cons, isProfileCall]
        using ih ht

/-- Blank-read termination, relative to the tail of the trace after the
initial console read. -/
theorem no_call_after_blank_aux (f : String) (rest : List Event)
    (hbs : blankStops rest) :
    ∀ pre l post, Event.inputRead f :: rest = pre ++ Event.inputRead l :: post →
      pre ≠ [] → strippedEmpty l = true → countProfileCalls post = 0 := by
  intro pre l post h hpre hblank
  cases pre with
  | nil => exact absurd rfl hpre
  | cons x pre' =>
    simp only [List.cons_append, List.cons.injEq] at h
    exact blankStops_split l pre' rest post hbs h.2 hblank

/-- Claim C1: in every session, the profile-collection loop makes at most
5 `gather_profile` request/response attempts, however many replies lack
the `PROFILE_COMPLETE` marker. -/
theorem profile_loop_at_most_five_calls (env : SessionEnv) :
    countProfileCalls (run_interactive_session env).trace ≤ 5 := by
  rcases run_cases env with ⟨e, _, hr⟩ | ⟨f, ext, e, _, hp, hr⟩
    | ⟨f, ext, pt, e, _, hp, _, _, hr⟩
    | ⟨f, ext, pt, res, e, _, hp, _, _, _, hr⟩
    | ⟨f, ext, pt, res, m, _, hp, _, _, _, hr⟩ <;> rw [hr]
  · simp [countProfileCalls]
  all_goals {
    have h5 := hp.2.2.1
    simp only [countProfileCalls] at h5
    simp [countProfileCalls, List.filter_cons, List.filter_append, isProfileCall]
    omega
  }

/-- Claim C2: a blank (empty or whitespace-only) line typed at any
follow-up prompt inside the profile-collection loop ends the loop on that
iteration: no profile model call occurs anywhere after that read. -/
theorem blank_follow_up_ends_loop (env : SessionEnv) :
    ∀ pre l post,
      (run_interactive_session env).trace = pre ++ Event.inputRead l :: post →
      pre ≠ [] → strippedEmpty l = true → countProfileCalls post = 0 := by
  intro pre l post h hpre hblank
  rcases run_cases env with ⟨e, _, hr⟩ | ⟨f, ext, e, _, hp, hr⟩
    | ⟨f, ext, pt, e, _, hp, _, _, hr⟩
    | ⟨f, ext, pt, res, e, _, hp, _, _, _, hr⟩
    | ⟨f, ext, pt, res, m, _, hp, _, _, _, hr⟩ <;> rw [hr] at h
  · exact absurd h.symm (by simp)
  · exact no_call_after_blank_aux f ext hp.2.1 pre l post h hpre hblank
  all_goals {
    refine no_call_after_blank_aux f _ ?_ pre l post h hpre hblank
    refine blankStops_append ext _ ?_ ?_ hp.2.1
    · exact blankStops_of_no_loop _ (by simp [loopEvent])
    · exact countProfileCalls_zero_of_no_loop _ (by simp [loopEvent])
  }

/-- Claim C10: the initial console input is passed to the profile agent
unconditionally — the blank-line abandonment check applies only to
follow-up prompts — so whenever the initial read returns (even a blank
line), the trace starts with that read followed by a profile model call,
and at least one profile model call is made. -/
theorem initial_input_unconditional (env : SessionEnv) (s : String)
    (h : env.initialInput = .ok s) :
    (∃ rep rest, (run_interactive_session env).trace =
        Event.inputRead s :: Event.profileCall s rep :: rest) ∧
    1 ≤ countProfileCalls (run_interactive_session env).trace := by
  rcases run_cases env with ⟨e, hi, hr⟩ | ⟨f, ext, e, hi, hp, hr⟩
    | ⟨f, ext, pt, e, hi, hp, _, _, hr⟩
    | ⟨f, ext, pt, res, e, hi, hp, _, _, _, hr⟩
    | ⟨f, ext, pt, res, m, hi, hp, _, _, _, hr⟩
  · rw [h] at hi; exact absurd hi (by simp)
  all_goals {
    rw [h] at hi
    injection hi with hf
    subst hf
    obtain ⟨rep, rest, hext⟩ := hp.2.2.2
    subst hext
    rw [hr]
    constructor
    · exact ⟨rep, _, rfl⟩
    · simp [countProfileCalls, List.filter_cons, isProfileCall]
  }

theorem not_mem_head_ext (ev : Event) (f : String) (ext : List Event)
    (hle : ∀ e ∈ ext, loopEvent e = true) (hev : loopEvent ev = false) :
    ev ∉ Event.inputRead f :: ext := by
  intro hmem
  rcases List.mem_cons.mp hmem with heq | hmem'
  · subst heq; simp [loopEvent] at hev
  · rw [hle ev hmem'] at hev; cases hev

theorem split_tail_mem {M pre post : List Event} (E : Event) (f : String)
    (ext : List Event)
    (hle : ∀ e ∈ ext, loopEvent e = true) (hev : loopEvent E = false)
    (h : Event.inputRead f :: (ext ++ M) = pre ++ E :: post) :
    ∃ M1, pre = (Event.inputRead f :: ext) ++ M1 ∧ M = M1 ++ E :: post := by
  apply mem_pre_of_split E (Event.inputRead f :: ext) M pre post ?_
    (not_mem_head_ext E f ext hle hev)
  simpa using h

theorem mem_of_trace_split {pre post : List Event} (E : Event) (tr : List Event)
    (h : tr = pre ++ E :: post) : E ∈ tr := by
  rw [h]
  exact List.mem_append_right pre (List.mem_cons_self E post)

/-- Claim C3: in every run, a research-agent call occurs only after the
profile field of the session result has been assigned, and a roadmap-agent
call occurs only after the profile assignment, a research call, and the
resources assignment: the pipeline is strictly profile, then research,
then roadmap. -/
theorem pipeline_stage_ordering (env : SessionEnv) :
    (∀ pre p post,
       (run_interactive_session env).trace = pre ++ Event.researchCall p :: post →
       ∃ q, Event.assignProfile q ∈ pre) ∧
    (∀ pre p res post,
       (run_interactive_session env).trace = pre ++ Event.roadmapCall p res :: post →
       (∃ q, Event.assignProfile q ∈ pre) ∧ (∃ q, Event.researchCall q ∈ pre) ∧
       (∃ q, Event.assignResources q ∈ pre)) := by
  rcases run_cases env with ⟨e, _, hr⟩ | ⟨f, ext, e, _, hp, hr⟩
    | ⟨f, ext, pt, e, _, hp, _, _, hr⟩
    | ⟨f, ext, pt, res0, e, _, hp, _, _, _, hr⟩
    | ⟨f, ext, pt, res0, m, _, hp, _, _, _, hr⟩ <;> rw [hr] <;> constructor
  -- init-error: empty trace has no decomposition
  · intro pre p post h; exact absurd h (by simp)
  · intro pre p res post h; exact absurd h (by simp)
  -- loop-error: the trace has only loop events
  · intro pre p post h
    exact absurd (mem_of_trace_split _ _ h)
      (not_mem_head_ext _ f ext hp.1 (by simp [loopEvent]))
  · intro pre p res post h
    exact absurd (mem_of_trace_split _ _ h)
      (not_mem_head_ext _ f ext hp.1 (by simp [loopEvent]))
  -- research-error tail [assignProfile, researchCall]
  · intro pre p post h
    obtain ⟨M1, hpre, hM⟩ := split_tail_mem _ f ext hp.1 (by simp [loopEvent]) h
    rcases M1 with _ | ⟨x1, M1⟩
    · simp at hM
    · simp only [List.cons_append, List.cons.injEq] at hM
      obtain ⟨hx1, _⟩ := hM
      subst hx1
      exact ⟨pt, by rw [hpre]; simp⟩
  · intro pre p res post h
    obtain ⟨M1, hpre, hM⟩ := split_tail_mem _ f ext hp.1 (by simp [loopEvent]) h
    rcases M1 with _ | ⟨x1, _ | ⟨x2, M1⟩⟩ <;> simp at hM
  -- advisor-error tail [assignProfile, researchCall, assignResources, roadmapCall]
  · intro pre p post h
    obtain ⟨M1, hpre, hM⟩ := split_tail_mem _ f ext hp.1 (by simp [loopEvent]) h
    rcases M1 with _ | ⟨x1, M1⟩
    · simp at hM
    · simp only [List.cons_append, List.cons.injEq] at hM
      obtain ⟨hx1, _⟩ := hM
      subst hx1
      exact ⟨pt, by rw [hpre]; simp⟩
  · intro pre p res post h
    obtain ⟨M1, hpre, hM⟩ := split_tail_mem _ f ext hp.1 (by simp [loopEvent]) h
    rcases M1 with _ | ⟨x1, _ | ⟨x2, _ | ⟨x3, M1⟩⟩⟩
    · simp at hM
    · simp at hM
    · simp at hM
    · simp only [List.cons_append, List.cons.injEq] at hM
      obtain ⟨hx1, hx2, hx3, _⟩ := hM
      subst hx1; subst hx2; subst hx3
      refine ⟨⟨pt, ?_⟩, ⟨pt, ?_⟩, ⟨res0, ?_⟩⟩ <;> rw [hpre] <;> simp
  -- full-run tail
  · intro pre p post h
    obtain ⟨M1, hpre, hM⟩ := split_tail_mem _ f ext hp.1 (by simp [loopEvent]) h
    rcases M1 with _ | ⟨x1, M1⟩
    · simp at hM
    · simp only [List.cons_append, List.cons.injEq] at hM
      obtain ⟨hx1, _⟩ := hM
      subst hx1
      exact ⟨pt, by rw [hpre]; simp⟩
  · intro pre p res post h
    obtain ⟨M1, hpre, hM⟩ := split_tail_mem _ f ext hp.1 (by simp [loopEvent]) h
    rcases M1 with _ | ⟨x1, _ | ⟨x2, _ | ⟨x3, M1⟩⟩⟩
    · simp at hM
    · simp at hM
    · simp at hM
    · simp only [List.cons_append, List.cons.injEq] at hM
      obtain ⟨hx1, hx2, hx3, _⟩ := hM
      subst hx1; subst hx2; subst hx3
      refine ⟨⟨pt, ?_⟩, ⟨pt, ?_⟩, ⟨res0, ?_⟩⟩ <;> rw [hpre] <;> simp

theorem transcriptOf_length (tr : List Event)
    (h : ∀ e ∈ tr, callFailed e = false) :
    (transcriptOf tr).length = 2 * countProfileCalls tr := by
  induction tr with
  | nil => simp [transcriptOf, countProfileCalls]
  | cons x tr ih =>
    have hx := h x (List.mem_cons_self x tr)
    have ht : ∀ e ∈ tr, callFailed e = false :=
      fun e he => h e (List.mem_cons_of_mem x he)
    have hih := ih ht
    cases x with
    | profileCall input rep =>
      cases rep with
      | none => simp [callFailed] at hx
      | some rr =>
        simp only [transcriptOf, List.flatMap_cons] at *
        simp only [countProfileCalls, List.filter_cons, isProfileCall] at *
        simp at *
        omega
    | inputRead l =>
      simpa [transcriptOf, countProfileCalls, List.filter_cons, isProfileCall]
        using hih
    | assignProfile p =>
      simpa [transcriptOf, countProfileCalls, List.filter_cons, isProfileCall]
        using hih
    | researchCall p =>
      simpa [transcriptOf, countProfileCalls, List.filter_cons, isProfileCall]
        using hih
    | assignResources r =>
      simpa [transcriptOf, countProfileCalls, List.filter_cons, isProfileCall]
        using hih
    | roadmapCall p r =>
      simpa [transcriptOf, countProfileCalls, List.filter_cons, isProfileCall]
        using hih
    | assignRoadmap m =>
      simpa [transcriptOf, countProfileCalls, List.filter_cons, isProfileCall]
        using hih
    | cleanup =>
      simpa [transcriptOf, countProfileCalls, List.filter_cons, isProfileCall]
        using hih

theorem repliesOf_no_calls (f : String) (ext M : List Event)
    (hM : ∀ e ∈ M, isProfileCall e = false) :
    repliesOf (Event.inputRead f :: (ext ++ M)) = repliesOf ext := by
  simp [repliesOf, List.filterMap_cons, List.filterMap_append]
  intro a ha
  have hx := hM a ha
  cases a <;> simp_all [isProfileCall]

theorem replies_conclusion (f : String) (ext M : List Event) (pt : String)
    (hM : ∀ e ∈ M, isProfileCall e = false)
    (hq : repliesProps pt ext) :
    (repliesOf (Event.inputRead f :: (ext ++ M))).getLast? = some pt ∧
    ∀ r ∈ (repliesOf (Event.inputRead f :: (ext ++ M))).dropLast,
      hasMarker r = false := by
  rw [repliesOf_no_calls f ext M hM]
  exact ⟨hq.1, hq.2⟩

/-- Claim C4: the profile text handed to the research agent is always the
last profile-agent reply recorded in the trace, and every earlier reply
lacks the `PROFILE_COMPLETE` marker — so it is the first marker-bearing
reply when one occurred (the loop exits immediately on detection), and
otherwise the last reply before the loop ended by exhaustion or blank
input. -/
theorem research_receives_last_reply (env : SessionEnv) (p : String)
    (h : Event.researchCall p ∈ (run_interactive_session env).trace) :
    (repliesOf (run_interactive_session env).trace).getLast? = some p ∧
    ∀ r ∈ (repliesOf (run_interactive_session env).trace).dropLast,
      hasMarker r = false := by
  rcases run_cases env with ⟨e, _, hr⟩ | ⟨f, ext, e, _, hp, hr⟩
    | ⟨f, ext, pt, e, _, hp, hq, _, hr⟩
    | ⟨f, ext, pt, res0, e, _, hp, hq, _, _, hr⟩
    | ⟨f, ext, pt, res0, m, _, hp, hq, _, _, hr⟩ <;> rw [hr] at h ⊢
  · simp at h
  · exact absurd h (not_mem_head_ext _ f ext hp.1 (by simp [loopEvent]))
  · rcases List.mem_cons.mp h with heq | hmem
    · exact absurd heq (by simp)
    · rcases List.mem_append.mp hmem with hL | hR
      · have := hp.1 _ hL
        simp [loopEvent] at this
      · simp at hR
        rw [hR]
        exact replies_conclusion f ext _ pt (by simp [isProfileCall]) hq
  · rcases List.mem_cons.mp h with heq | hmem
    · exact absurd heq (by simp)
    · rcases List.mem_append.mp hmem with hL | hR
      · have := hp.1 _ hL
        simp [loopEvent] at this
      · simp at hR
        rw [hR]
        exact replies_conclusion f ext _ pt (by simp [isProfileCall]) hq
  · rcases List.mem_cons.mp h with heq | hmem
    · exact absurd heq (by simp)
    · rcases List.mem_append.mp hmem with hL | hR
      · have := hp.1 _ hL
        simp [loopEvent] at this
      · simp at hR
        rw [hR]
        exact replies_conclusion f ext _ pt (by simp [isProfileCall]) hq

/-- Claim C5, amended: an interrupt arriving at any suspension point is
caught only at the top level and produces the friendly farewell (it is not
treated as an error), but the search-tool cleanup is NOT performed in that
case: the cleanup attempt occurs exactly in the runs that complete all
three stages, because `run_interactive_session` has no `finally` block. -/
theorem interrupt_farewell_no_cleanup (env : SessionEnv) :
    ((main env).2 = MainOutcome.farewell ↔
      (run_interactive_session env).exn = some PyExn.keyboardInterrupt) ∧
    (Event.cleanup ∈ (run_interactive_session env).trace ↔
      ∃ m, Event.assignRoadmap m ∈ (run_interactive_session env).trace) := by
  constructor
  · cases hx : (run_interactive_session env).exn with
    | none => simp [main, hx]
    | some e => cases e <;> simp [main, hx]
  · rcases run_cases env with ⟨e, _, hr⟩ | ⟨f, ext, e, _, hp, hr⟩
    | ⟨f, ext, pt, e, _, hp, _, _, hr⟩
    | ⟨f, ext, pt, res0, e, _, hp, _, _, _, hr⟩
    | ⟨f, ext, pt, res0, m, _, hp, _, _, _, hr⟩ <;> rw [hr]
    · simp
    · constructor
      · intro hc
        exact absurd hc (not_mem_head_ext _ f ext hp.1 (by simp [loopEvent]))
      · rintro ⟨m, hm⟩
        exact absurd hm (not_mem_head_ext _ f ext hp.1 (by simp [loopEvent]))
    · constructor
      · intro hc
        rcases List.mem_cons.mp hc with heq | hmem
        · exact absurd heq (by simp)
        rcases List.mem_append.mp hmem with hL | hR
        · have := hp.1 _ hL
          simp [loopEvent] at this
        · simp at hR
      · rintro ⟨m', hm'⟩
        rcases List.mem_cons.mp hm' with heq | hmem
        · exact absurd heq (by simp)
        rcases List.mem_append.mp hmem with hL | hR
        · have := hp.1 _ hL
          simp [loopEvent] at this
        · simp at hR
    · constructor
      · intro hc
        rcases List.mem_cons.mp hc with heq | hmem
        · exact absurd heq (by simp)
        rcases List.mem_append.mp hmem with hL | hR
        · have := hp.1 _ hL
          simp [loopEvent] at this
        · simp at hR
      · rintro ⟨m', hm'⟩
        rcases List.mem_cons.mp hm' with heq | hmem
        · exact absurd heq (by simp)
        rcases List.mem_append.mp hmem with hL | hR
        · have := hp.1 _ hL
          simp [loopEvent] at this
        · simp at hR
    · constructor
      · intro _
        exact ⟨m, by simp⟩
      · intro _
        simp

/-- Claim C7: an ordinary exception raised inside any of the three
pipeline stages escapes `run_interactive_session` unmodified and is
reported by the top-level handler as an error, and when the research stage
raises, the roadmap agent is never called. -/
theorem stage_exception_propagates (env : SessionEnv) (msg : String) :
    ((run_interactive_session env).exn = some (PyExn.error msg) →
      (main env).2 = MainOutcome.errorReport msg) ∧
    (env.researchModel = .error (PyExn.error msg) →
      ∀ p r, Event.roadmapCall p r ∉ (run_interactive_session env).trace) := by
  constructor
  · intro hx; simp [main, hx]
  · intro hrm p r hmem
    rcases run_cases env with ⟨e, _, hr⟩ | ⟨f, ext, e, _, hp, hr⟩
      | ⟨f, ext, pt, e, _, hp, _, _, hr⟩
      | ⟨f, ext, pt, res0, e, _, hp, _, hok, _, hr⟩
      | ⟨f, ext, pt, res0, m, _, hp, _, hok, _, hr⟩
    · rw [hr] at hmem; simp at hmem
    · rw [hr] at hmem
      exact absurd hmem (not_mem_head_ext _ f ext hp.1 (by simp [loopEvent]))
    · rw [hr] at hmem
      rcases List.mem_cons.mp hmem with heq | hmem'
      · exact absurd heq (by simp)
      rcases List.mem_append.mp hmem' with hL | hR
      · have := hp.1 _ hL
        simp [loopEvent] at this
      · simp at hR
    · rw [hok] at hrm; exact absurd hrm (by simp)
    · rw [hok] at hrm; exact absurd hrm (by simp)

/-- Claim C9: `_profile_context` is exactly the ordered transcript of the
recorded profile exchanges — entries are only appended, one user entry per
call and one agent entry per returned reply — so after N completed
exchanges its length is exactly 2N. -/
theorem transcript_matches_calls (env : SessionEnv) :
    (∀ mr ctx u, ∃ added, (gather_profile mr ctx u).1 = ctx ++ added) ∧
    (run_interactive_session env).state.profileContext =
      transcriptOf (run_interactive_session env).trace ∧
    ((∀ e ∈ (run_interactive_session env).trace, callFailed e = false) →
      (run_interactive_session env).state.profileContext.length =
        2 * countProfileCalls (run_interactive_session env).trace) := by
  have happend : ∀ (mr : Except PyExn String) (ctx : List String) (u : String),
      ∃ added, (gather_profile mr ctx u).1 = ctx ++ added := by
    intro mr ctx u
    cases mr with
    | error e => exact ⟨["User: " ++ u], rfl⟩
    | ok t => exact ⟨["User: " ++ u, "Agent: " ++ t], rfl⟩
  have hmain : (run_interactive_session env).state.profileContext =
      transcriptOf (run_interactive_session env).trace := by
    rcases run_cases env with ⟨e, _, hr⟩ | ⟨f, ext, e, _, hp, hr⟩
      | ⟨f, ext, pt, e, _, hp, _, _, hr⟩
      | ⟨f, ext, pt, res0, e, _, hp, _, _, _, hr⟩
      | ⟨f, ext, pt, res0, m, _, hp, _, _, _, hr⟩ <;> rw [hr] <;>
      simp [transcriptOf, initState, List.flatMap_cons, List.flatMap_append]
  refine ⟨happend, hmain, ?_⟩
  intro hok
  rw [hmain]
  exact transcriptOf_length _ hok

/-- Claim C6: `_cleanup_mcp` never raises to its caller under any failure
mode of the release — already-closed connection, network down, or a tool
object missing both `close` and `__aexit__` — every exception raised
during the sleep or the release call is swallowed.  (In Python only a
`KeyboardInterrupt`, which is not an `Exception`, could escape the
`except Exception` handler; the hypotheses say the steps do not raise
one.) -/
theorem cleanup_never_raises (ce : CleanupEnv)
    (h1 : isInterrupt ce.sleepResult = false)
    (h2 : isInterrupt ce.closeResult = false)
    (h3 : isInterrupt ce.aexitResult = false) :
    cleanup_mcp ce = .ok () := by
  obtain ⟨sr, hc, cr, ha, ar⟩ := ce
  simp only at h1 h2 h3
  cases sr with
  | error e =>
    cases e with
    | keyboardInterrupt => simp [isInterrupt] at h1
    | error msg => rfl
  | ok v =>
    cases hc with
    | true =>
      cases cr with
      | error e =>
        cases e with
        | keyboardInterrupt => simp [isInterrupt] at h2
        | error msg => rfl
      | ok w => rfl
    | false =>
      cases ha with
      | true =>
        cases ar with
        | error e =>
          cases e with
          | keyboardInterrupt => simp [isInterrupt] at h3
          | error msg => rfl
        | ok w => rfl
      | false => rfl

/-- Claim C8: each of the three required environment settings is checked,
in order, to be present and non-empty before any agent can be constructed,
each with its own descriptive `ValueError` message; when all three are
truthy the configuration is produced, with the API version defaulting to
the literal `"2025-01-01-preview"` exactly when the variable is unset. -/
theorem config_validation (ev : EnvVars) :
    (truthy ev.azureEndpoint = false →
      loadConfig ev = .error "AZURE_OPENAI_ENDPOINT not found in .env file") ∧
    (truthy ev.azureEndpoint = true → truthy ev.apiKey = false →
      loadConfig ev = .error "AZURE_OPENAI_API_KEY not found in .env file") ∧
    (truthy ev.azureEndpoint = true → truthy ev.apiKey = true →
      truthy ev.deploymentName = false →
      loadConfig ev =
        .error "AZURE_OPENAI_DEPLOYMENT_NAME not found in .env file") ∧
    (truthy ev.azureEndpoint = true → truthy ev.apiKey = true →
      truthy ev.deploymentName = true →
      loadConfig ev = .ok (Config.mk (ev.azureEndpoint.getD "")
        (ev.apiKey.getD "") (ev.deploymentName.getD "")
        (ev.apiVersion.getD "2025-01-01-preview"))) := by
  refine ⟨?_, ?_, ?_, ?_⟩
  · intro h1
    simp [loadConfig, h1]
  · intro h1 h2
    simp [loadConfig, h1, h2]
  · intro h1 h2 h3
    simp [loadConfig, h1, h2, h3]
  · intro h1 h2 h3
    simp [loadConfig, h1, h2, h3]

/-- Claim C5, counterexample to the claim as stated: an interrupt during
the first profile-collection suspension point aborts the session, the top
level prints the farewell — and the search-tool cleanup is never
attempted, contradicting "the release is still performed". -/
theorem interrupt_skips_cleanup_counterexample :
    (run_interactive_session envInterrupt).exn = some PyExn.keyboardInterrupt ∧
    (main envInterrupt).2 = MainOutcome.farewell ∧
    Event.cleanup ∉ (run_interactive_session envInterrupt).trace := by
  refine ⟨rfl, rfl, ?_⟩
  decide

theorem blank_follow_up_ends_loop_witness :
    countProfileCalls
      [Event.assignProfile "What is your current level?",
       Event.researchCall "What is your current level?",
       Event.assignResources "RESOURCE: AZ-900",
       Event.roadmapCall "What is your current level?" "RESOURCE: AZ-900",
       Event.assignRoadmap "YOUR CAREER PATH", Event.cleanup] = 0 :=
  blank_follow_up_ends_loop envBlank
    [Event.inputRead "cloud developer",
     Event.profileCall "cloud developer" (some "What is your current level?")]
    ""
    [Event.assignProfile "What is your current level?",
     Event.researchCall "What is your current level?",
     Event.assignResources "RESOURCE: AZ-900",
     Event.roadmapCall "What is your current level?" "RESOURCE: AZ-900",
     Event.assignRoadmap "YOUR CAREER PATH", Event.cleanup]
    rfl (by decide) rfl

theorem pipeline_stage_ordering_witness :
    (∃ q, Event.assignProfile q ∈
        [Event.inputRead "cloud developer",
         Event.profileCall "cloud developer" (some "What is your current level?"),
         Event.inputRead "beginner",
         Event.profileCall "beginner"
           (some "PROFILE_COMPLETE Goal: cloud developer"),
         Event.assignProfile "PROFILE_COMPLETE Goal: cloud developer"]) ∧
    (∃ q, Event.assignResources q ∈
        [Event.inputRead "cloud developer",
         Event.profileCall "cloud developer" (some "What is your current level?"),
         Event.inputRead "beginner",
         Event.profileCall "beginner"
           (some "PROFILE_COMPLETE Goal: cloud developer"),
         Event.assignProfile "PROFILE_COMPLETE Goal: cloud developer",
         Event.researchCall "PROFILE_COMPLETE Goal: cloud developer",
         Event.assignResources "RESOURCE: AZ-900"]) :=
  ⟨(pipeline_stage_ordering envFull).1
      [Event.inputRead "cloud developer",
       Event.profileCall "cloud developer" (some "What is your current level?"),
       Event.inputRead "beginner",
       Event.profileCall "beginner"
         (some "PROFILE_COMPLETE Goal: cloud developer"),
       Event.assignProfile "PROFILE_COMPLETE Goal: cloud developer"]
      "PROFILE_COMPLETE Goal: cloud developer"
      [Event.assignResources "RESOURCE: AZ-900",
       Event.roadmapCall "PROFILE_COMPLETE Goal: cloud developer" "RESOURCE: AZ-900",
       Event.assignRoadmap "YOUR CAREER PATH", Event.cleanup]
      rfl,
   ((pipeline_stage_ordering envFull).2
      [Event.inputRead "cloud developer",
       Event.profileCall "cloud developer" (some "What is your current level?"),
       Event.inputRead "beginner",
       Event.profileCall "beginner"
         (some "PROFILE_COMPLETE Goal: cloud developer"),
       Event.assignProfile "PROFILE_COMPLETE Goal: cloud developer",
       Event.researchCall "PROFILE_COMPLETE Goal: cloud developer",
       Event.assignResources "RESOURCE: AZ-900"]
      "PROFILE_COMPLETE Goal: cloud developer" "RESOURCE: AZ-900"
      [Event.assignRoadmap "YOUR CAREER PATH", Event.cleanup]
      rfl).2.2⟩

theorem research_receives_last_reply_witness :
    (repliesOf (run_interactive_session envFull).trace).getLast? =
      some "PROFILE_COMPLETE Goal: cloud developer" :=
  (research_receives_last_reply envFull
    "PROFILE_COMPLETE Goal: cloud developer" (by decide)).1

theorem cleanup_never_raises_witness :
    cleanup_mcp failCleanup = .ok () :=
  cleanup_never_raises failCleanup rfl rfl rfl

theorem stage_exception_propagates_witness :
    (main envResearchFail).2 = MainOutcome.errorReport "request timeout" ∧
    Event.roadmapCall "a" "b" ∉
      (run_interactive_session envResearchFail).trace :=
  ⟨(stage_exception_propagates envResearchFail "request timeout").1 rfl,
   (stage_exception_propagates envResearchFail "request timeout").2 rfl "a" "b"⟩

theorem config_validation_witness :
    loadConfig missingEndpointEnv =
      .error "AZURE_OPENAI_ENDPOINT not found in .env file" :=
  (config_validation missingEndpointEnv).1 rfl

theorem transcript_matches_calls_witness :
    (run_interactive_session envFull).state.profileContext.length =
      2 * countProfileCalls (run_interactive_session envFull).trace :=
  (transcript_matches_calls envFull).2.2 (by decide)

theorem initial_input_unconditional_witness :
    (∃ rep rest, (run_interactive_session envBlankInit).trace =
        Event.inputRead "" :: Event.profileCall "" rep :: rest) ∧
    1 ≤ countProfileCalls (run_interactive_session envBlankInit).trace :=
  initial_input_unconditional envBlankInit "" rfl

theorem profile_loop_at_most_five_calls_witness :
    countProfileCalls (run_interactive_session envFull).trace ≤ 5 :=
  profile_loop_at_most_five_calls envFull

end CareerAdvisor
